import Mathlib

/-!
Verification of the `collect_slice` crate (`src/lib.rs`).

The crate extends every `Iterator` with four methods:

* `collect_slice`: `slice.iter_mut().zip(self).fold(0, |count, (dest, item)| { *dest = item; count + 1 })`
  — write the iterator's items into the slice, slot by slot, until either the
  slice is full or the iterator is exhausted, and return the number written.
  `Zip` pulls from the slice-slot iterator first, so once the slice is full
  the source iterator is not pulled again.
* `collect_slice_fill`: `assert_eq!(self.collect_slice(slice), slice.len())`.
* `collect_slice_exhaust`: runs `collect_slice`, then
  `assert!(self.next().is_none())` (which consumes one more item when the
  iterator is not exhausted), and returns the count.
* `collect_slice_checked`: `assert_eq!(self.collect_slice_exhaust(slice), slice.len())`.

Embedding: an iterator is the list of items it has yet to yield; a slice is
the list of its current contents.  Each operation returns the final state of
the slice and of the iterator together with its result.  A Rust panic
(failed `assert!`/`assert_eq!`) is modelled by a `Bool` flag, `true` when the
call returns normally; the slice and iterator components hold the state at
the moment of return or panic, since a panic does not roll anything back.
-/

namespace CollectSlice

/-- Rust `collect_slice` on iterator state `it` and slice contents `s`:
returns `(count, final slice contents, remaining iterator items)`.
The three cases mirror one `Zip::next` step of
`slice.iter_mut().zip(self)`: if the slice-slot side is exhausted the fold
ends without pulling the source; otherwise the source is pulled, and if it
is exhausted the fold ends; otherwise the item is written into the current
slot and the fold continues on the rest. -/
def collect_slice {α : Type} : List α → List α → Nat × List α × List α
  | it, [] => (0, [], it)
  | [], d :: ds => (0, d :: ds, [])
  | x :: it, _ :: ds =>
    match collect_slice it ds with
    | (count, written, rest) => (count + 1, x :: written, rest)

/-- Rust `Iterator::next` on the modelled iterator state: yields the first
pending item (or `none` at exhaustion) together with the advanced state. -/
def next {α : Type} : List α → Option α × List α
  | [] => (none, [])
  | x :: xs => (some x, xs)

/-- Rust `collect_slice_fill`: run `collect_slice`, then
`assert_eq!(count, slice.len())`.  The flag is `true` iff the assertion
holds; slice and iterator state are those left by `collect_slice`, whether
or not the assertion panics. -/
def collect_slice_fill {α : Type} (it s : List α) : Bool × List α × List α :=
  let r := collect_slice it s
  (decide (r.1 = s.length), r.2.1, r.2.2)

/-- Rust `collect_slice_exhaust`: run `collect_slice`, then
`assert!(self.next().is_none())` — this pulls one further item from the
iterator, so on the panic path that item has been consumed and lost.
Returns `(flag, count, final slice, remaining iterator)`. -/
def collect_slice_exhaust {α : Type} (it s : List α) : Bool × Nat × List α × List α :=
  let r := collect_slice it s
  let n := next r.2.2
  (n.1.isNone, r.1, r.2.1, n.2)

/-- Rust `collect_slice_checked`: run `collect_slice_exhaust`, then
`assert_eq!(count, slice.len())`.  It panics as soon as the inner
`collect_slice_exhaust` panics, and otherwise iff the count assertion
fails; slice and iterator state are those left by `collect_slice_exhaust`. -/
def collect_slice_checked {α : Type} (it s : List α) : Bool × List α × List α :=
  let r := collect_slice_exhaust it s
  (r.1 && decide (r.2.1 = s.length), r.2.2.1, r.2.2.2)

/-- Full characterisation of `collect_slice`: with `m` items pending and a
slice of length `L`, it returns `min m L`, the slice holds the first
`min m L` items followed by its untouched tail, and the iterator keeps the
items after the first `min m L`. -/
theorem collect_slice_eq {α : Type} (it s : List α) :
    collect_slice it s =
      (min it.length s.length,
       it.take (min it.length s.length) ++ s.drop (min it.length s.length),
       it.drop (min it.length s.length)) := by
  induction it generalizing s with
  | nil => cases s <;> simp [collect_slice]
  | cons x it ih =>
    cases s with
    | nil => simp [collect_slice]
    | cons d ds => simp [collect_slice, ih, Nat.succ_min_succ]

/-- One `next` call yields the head (if any) and leaves the tail. -/
theorem next_eq {α : Type} (l : List α) : next l = (l.head?, l.tail) := by
  cases l <;> rfl

/-- Slots below `min m L` of the final slice hold the iterator's items. -/
theorem collect_slice_written_getElem {α : Type} (it s : List α) (i : Nat)
    (hi : i < min it.length s.length) :
    (collect_slice it s).2.1[i]? = it[i]? := by
  rw [collect_slice_eq]
  show (it.take (min it.length s.length) ++ s.drop (min it.length s.length))[i]? = it[i]?
  rw [List.getElem?_append, List.length_take]
  rw [if_pos (by omega), List.getElem?_take, if_pos (by omega)]

/-- The lookup `l[n]?` is `none` exactly when `n` is past the end. -/
theorem isNone_getElem {α : Type} (l : List α) (n : Nat) :
    (l[n]?).isNone = decide (l.length ≤ n) := by
  rcases Nat.lt_or_ge n l.length with h | h
  · rw [List.getElem?_eq_getElem h]
    simp
    omega
  · rw [List.getElem?_eq_none h]
    simp
    omega

/-- C1: for every iterator yielding `m ≥ 0` items and every destination
slice of length `L ≥ 0`, `collect_slice` returns `min m L`; the count
satisfies `0 ≤ count ≤ L`, and `count < L` exactly when the iterator was
exhausted before the slice filled (`m < L`). -/
theorem collect_slice_count_min {α : Type} (it s : List α) :
    (collect_slice it s).1 = min it.length s.length ∧
    (collect_slice it s).1 ≤ s.length ∧
    ((collect_slice it s).1 < s.length ↔ it.length < s.length) := by
  rw [collect_slice_eq]
  refine ⟨rfl, Nat.min_le_right _ _, ?_⟩
  show min it.length s.length < s.length ↔ it.length < s.length
  omega

/-- C2: after `collect_slice` returns `count`, slot `i` of the slice holds
the `i`-th item yielded by the iterator for every `i < count`: items are
written in order from index 0, none skipped or reordered. -/
theorem collect_slice_writes_in_order {α : Type} (it s : List α) (i : Nat)
    (hi : i < (collect_slice it s).1) :
    (collect_slice it s).2.1[i]? = it[i]? := by
  rw [collect_slice_eq] at hi
  exact collect_slice_written_getElem it s i hi

/-- Witness for C2: collecting `[10, 20, 30]` into a 2-slot slice writes
item 0 into slot 0. -/
theorem collect_slice_writes_in_order_witness :
    0 < (collect_slice [10, 20, 30] [0, 0]).1 ∧
    (collect_slice [10, 20, 30] [0, 0]).2.1[0]? = [10, 20, 30][0]? :=
  ⟨by decide, collect_slice_writes_in_order [10, 20, 30] [0, 0] 0 (by decide)⟩

/-- C3: every slot at index `≥ count` retains exactly the value it held
before the call; only slots `[0, count)` are mutated.  (For `i` beyond the
slice length both sides are `none`, so the statement also records that the
slice length is unchanged.) -/
theorem collect_slice_frame {α : Type} (it s : List α) (i : Nat)
    (hi : (collect_slice it s).1 ≤ i) :
    (collect_slice it s).2.1[i]? = s[i]? := by
  simp only [collect_slice_eq] at hi ⊢
  rw [List.getElem?_append, List.length_take]
  rw [if_neg (by omega), List.getElem?_drop]
  congr 1
  omega

/-- Witness for C3: collecting `[10]` into `[1, 2, 3]` returns 1 and leaves
slot 2 holding its old value `3`. -/
theorem collect_slice_frame_witness :
    (collect_slice [10] [1, 2, 3]).1 ≤ 2 ∧
    (collect_slice [10] [1, 2, 3]).2.1[2]? = [1, 2, 3][2]? :=
  ⟨by decide, collect_slice_frame [10] [1, 2, 3] 2 (by decide)⟩

/-- C4: when the iterator yields `m > L` items, `collect_slice` consumes
exactly `L` of them — the remaining iterator is the original one with its
first `L` items removed, so the next query yields the `(L+1)`-th original
item (`it[L]` zero-indexed), with nothing skipped or duplicated.  The
`Zip` in the source pulls the slice side first, so once the slice is full
the source is never pulled again. -/
theorem collect_slice_consumes_exactly {α : Type} (it s : List α)
    (h : s.length < it.length) :
    (collect_slice it s).2.2 = it.drop s.length ∧
    (collect_slice it s).2.2.head? = it[s.length]? := by
  have hm : min it.length s.length = s.length := Nat.min_eq_right (Nat.le_of_lt h)
  rw [collect_slice_eq, hm]
  exact ⟨rfl, List.head?_drop it s.length⟩

/-- Witness for C4: collecting 4 items into a 2-slot slice leaves the
iterator holding items 3 and 4, with the 3rd item up next. -/
theorem collect_slice_consumes_exactly_witness :
    (2 : Nat) < 4 ∧
    ((collect_slice [1, 2, 3, 4] [0, 0]).2.2 = [3, 4] ∧
     (collect_slice [1, 2, 3, 4] [0, 0]).2.2.head? = [1, 2, 3, 4][2]?) :=
  ⟨by decide, by
    simpa using collect_slice_consumes_exactly [1, 2, 3, 4] [0, 0] (by decide)⟩

/-- C5: `collect_slice_fill` returns normally iff the iterator yields at
least `L` items (`m ≥ L`), panics iff `m < L`, and on success the number
of items written by the underlying `collect_slice` equals `L`. -/
theorem collect_slice_fill_spec {α : Type} (it s : List α) :
    ((collect_slice_fill it s).1 = true ↔ s.length ≤ it.length) ∧
    ((collect_slice_fill it s).1 = false ↔ it.length < s.length) ∧
    ((collect_slice_fill it s).1 = true → (collect_slice it s).1 = s.length) := by
  simp [collect_slice_fill, collect_slice_eq]

/-- Witness for C5: a 3-item iterator into a 2-slot slice succeeds and the
underlying copy wrote 2 items. -/
theorem collect_slice_fill_spec_witness :
    ((collect_slice_fill [1, 2, 3] [0, 0]).1 = true ↔ (2 : Nat) ≤ 3) ∧
    ((collect_slice_fill [1, 2, 3] [0, 0]).1 = false ↔ (3 : Nat) < 2) ∧
    ((collect_slice_fill [1, 2, 3] [0, 0]).1 = true →
      (collect_slice [1, 2, 3] [0, 0]).1 = 2) := by
  simpa using collect_slice_fill_spec [1, 2, 3] [0, 0]

/-- C6: `collect_slice_exhaust` returns normally iff the iterator yields at
most `L` items (`m ≤ L`), panics iff `m > L`, and on success it returns
exactly `m`, the full number of items the iterator yielded. -/
theorem collect_slice_exhaust_spec {α : Type} (it s : List α) :
    ((collect_slice_exhaust it s).1 = true ↔ it.length ≤ s.length) ∧
    ((collect_slice_exhaust it s).1 = false ↔ s.length < it.length) ∧
    ((collect_slice_exhaust it s).1 = true →
      (collect_slice_exhaust it s).2.1 = it.length) := by
  simp [collect_slice_exhaust, collect_slice_eq, next_eq, List.head?_drop,
    isNone_getElem]

/-- Witness for C6: a 2-item iterator into a 3-slot slice succeeds and the
call returns 2. -/
theorem collect_slice_exhaust_spec_witness :
    ((collect_slice_exhaust [1, 2] [0, 0, 0]).1 = true ↔ (2 : Nat) ≤ 3) ∧
    ((collect_slice_exhaust [1, 2] [0, 0, 0]).1 = false ↔ (3 : Nat) < 2) ∧
    ((collect_slice_exhaust [1, 2] [0, 0, 0]).1 = true →
      (collect_slice_exhaust [1, 2] [0, 0, 0]).2.1 = 2) := by
  simpa using collect_slice_exhaust_spec [1, 2] [0, 0, 0]

/-- C7: `collect_slice_checked` returns normally iff the iterator yields
exactly `L` items; in particular an empty iterator into a 0-length slice
succeeds. -/
theorem collect_slice_checked_spec {α : Type} (it s : List α) :
    ((collect_slice_checked it s).1 = true ↔ it.length = s.length) ∧
    (collect_slice_checked ([] : List α) []).1 = true := by
  constructor
  · simp [collect_slice_checked, collect_slice_exhaust, collect_slice_eq,
      next_eq, List.head?_drop, isNone_getElem]
    omega
  · rfl

/-- C8: `collect_slice` itself never fails: for every iterator and slice —
under-fill (`m < L`) and over-fill (`m > L`) included — the call completes
normally with count `min m L`, a slice of unchanged length, and a
well-defined remaining iterator.  The source body is a pure
`zip`/`fold` with no assertion, panic or out-of-bounds access, so the
embedding is a total function and this theorem pins down its value on
every input; the only report of under- or over-fill is the returned
count. -/
theorem collect_slice_never_fails {α : Type} (it s : List α) :
    (collect_slice it s).1 = min it.length s.length ∧
    (collect_slice it s).2.1.length = s.length ∧
    (collect_slice it s).2.2.length = it.length - min it.length s.length := by
  rw [collect_slice_eq]
  refine ⟨rfl, ?_, ?_⟩
  · show (List.take (min it.length s.length) it ++
      List.drop (min it.length s.length) s).length = s.length
    rw [List.length_append, List.length_take, List.length_drop]
    omega
  · show (List.drop (min it.length s.length) it).length =
      it.length - min it.length s.length
    rw [List.length_drop]

/-- C9: when `collect_slice_exhaust` panics (`m > L`), it has consumed
exactly `L + 1` items: the `L+1`-th item was pulled by the
`assert!(self.next().is_none())` check and lost, leaving the iterator
holding the items from the `L+2`-th onward. -/
theorem collect_slice_exhaust_panic_state {α : Type} (it s : List α)
    (h : s.length < it.length) :
    (collect_slice_exhaust it s).1 = false ∧
    (collect_slice_exhaust it s).2.2.2 = it.drop (s.length + 1) := by
  have hm : min it.length s.length = s.length := Nat.min_eq_right (Nat.le_of_lt h)
  constructor
  · have hn : ¬ it.length ≤ s.length := by omega
    simp [collect_slice_exhaust, collect_slice_eq, next_eq, isNone_getElem, hm, hn]
  · simp [collect_slice_exhaust, collect_slice_eq, next_eq, hm, List.tail_drop]

/-- Witness for C9: exhausting a 3-item iterator into a 1-slot slice panics
with the iterator left holding only item 3 — items 1 and 2 went into the
copy and the check, and item 2 is lost. -/
theorem collect_slice_exhaust_panic_state_witness :
    (1 : Nat) < 3 ∧
    ((collect_slice_exhaust [1, 2, 3] [0]).1 = false ∧
     (collect_slice_exhaust [1, 2, 3] [0]).2.2.2 = [1, 2, 3].drop 2) :=
  ⟨by decide, collect_slice_exhaust_panic_state [1, 2, 3] [0] (by decide)⟩

/-- C10: `collect_slice_fill` and `collect_slice_checked` are not atomic on
failure: the assertion fires only after the copy, so on the panic path the
destination slice has already been mutated — slots `[0, min m L)` hold the
iterator's items and are not rolled back. -/
theorem collect_slice_fill_checked_not_atomic {α : Type} (it s : List α) (i : Nat)
    (hi : i < min it.length s.length) :
    (it.length < s.length → (collect_slice_fill it s).1 = false) ∧
    (it.length ≠ s.length → (collect_slice_checked it s).1 = false) ∧
    (collect_slice_fill it s).2.1[i]? = it[i]? ∧
    (collect_slice_checked it s).2.1[i]? = it[i]? := by
  refine ⟨?_, ?_, ?_, ?_⟩
  · intro h
    simp only [collect_slice_fill, collect_slice_eq, decide_eq_false_iff_not]
    omega
  · intro h
    simp [collect_slice_checked, collect_slice_exhaust, collect_slice_eq,
      next_eq, List.head?_drop, isNone_getElem]
    omega
  · show (collect_slice it s).2.1[i]? = it[i]?
    exact collect_slice_written_getElem it s i hi
  · show (collect_slice it s).2.1[i]? = it[i]?
    exact collect_slice_written_getElem it s i hi

/-- Witness for C10: a 2-item iterator into a 3-slot slice makes both
`collect_slice_fill` and `collect_slice_checked` panic, yet slot 0 of the
slice already holds the iterator's first item. -/
theorem collect_slice_fill_checked_not_atomic_witness :
    0 < min ([1, 2] : List Nat).length ([0, 0, 0] : List Nat).length ∧
    (((2 : Nat) < 3 → (collect_slice_fill [1, 2] [0, 0, 0]).1 = false) ∧
     ((2 : Nat) ≠ 3 → (collect_slice_checked [1, 2] [0, 0, 0]).1 = false) ∧
     (collect_slice_fill [1, 2] [0, 0, 0]).2.1[0]? = [1, 2][0]? ∧
     (collect_slice_checked [1, 2] [0, 0, 0]).2.1[0]? = [1, 2][0]?) :=
  ⟨by decide, by
    simpa using collect_slice_fill_checked_not_atomic [1, 2] [0, 0, 0] 0 (by decide)⟩

end CollectSlice
